import Mathlib

/-
Verification development for the student check-in/registration workflow
implemented in `src/database.py` (class `StudentDatabase`).

The Python class is shallowly embedded as pure Lean functions over an
explicit state `DBState`:
  - the MongoDB student collection is a `List Student` (documents with
    possibly-missing fields, hence `Option` fields; the Mongo `_id` is
    irrelevant to every property below and is omitted);
  - the scan-log collection is a `List LogEntry` (inserts append);
  - the Google Sheet is a `List (List String)` of rows within the
    configured range (the gateway's read returns the rows; a range update
    of row `i` replaces that row's first `|headers|` cells; append adds a
    row at the end);
  - `client : Bool` models `self.client` being non-`None`, and
    `sheetOk : Bool` models `self.sheets_service and self.sheet_id`;
  - `now : Nat` stands for `datetime.now()`;
  - remote calls are deterministic and succeed; the code's "failure"
    return paths that are structural (unconfigured service, empty sheet)
    are embedded exactly.
-/

namespace StudentDB

/-- A MongoDB student document: fields may be absent (`none`).
Mirrors the keys used in `database.py`. -/
structure Student where
  student_id : Option String
  name : Option String
  email : Option String
  age : Option Nat
  competition : Option Bool
  registration_status : Option Bool
  created_at : Option Nat
deriving DecidableEq

/-- A scan-log document, as built by `log_scan`. -/
structure LogEntry where
  student_id : String
  student_name : Option String
  log_status : String
  timestamp : Nat
  scan_type : String
deriving DecidableEq

/-- The observable state of the `StudentDatabase` instance plus its two
remote collaborators (Mongo collections and the Google Sheet). -/
structure DBState where
  client : Bool
  sheetOk : Bool
  sheet : List (List String)
  students : List Student
  logs : List LogEntry
  now : Nat
deriving DecidableEq

/-- The shape of `verify_student`'s return value: either the `{"error": ...}`
dict or the structured `{verified, student?, message, action, popup_message}`
dict. -/
inductive VerifyResult where
  | error (msg : String)
  | ok (verified : Bool) (student : Option Student) (message : String)
       (action : String) (popup : String)
deriving DecidableEq

/-- The shape of `add_student`'s return value (the inserted ObjectId string
is abstracted away). -/
inductive AddResult where
  | error (msg : String)
  | ok
deriving DecidableEq

/-- ASCII lower-casing of one character, as Python's `str.lower` acts on the
ASCII letters occurring in the header/value vocabulary of the code. -/
def lowChar (c : Char) : Char :=
  if 'A' ≤ c && c ≤ 'Z' then Char.ofNat (c.toNat + 32) else c

/-- Python `str.lower` (for the ASCII strings this code compares against). -/
def strLower (s : String) : String :=
  String.mk (s.data.map lowChar)

/-- Python `str.isdigit`: non-empty and all digit characters. -/
def pyIsDigit (s : String) : Bool :=
  !s.data.isEmpty && s.data.all Char.isDigit

/-- Decimal value of a digit string, i.e. `int(value)` on an `isdigit` string. -/
def digitsToNat (l : List Char) : Nat :=
  l.foldl (fun n c => n * 10 + (c.toNat - 48)) 0

/-- Age coercion `int(value) if value.isdigit() else 0`  (line 117 of `database.py`). -/
def pyInt (v : String) : Nat :=
  if pyIsDigit v then digitsToNat v.data else 0

/-- Test `value.lower() in ['true', 'yes', '1', 'y']`  (line 119). -/
def boolCell (v : String) : Bool :=
  strLower v == "true" || strLower v == "yes" || strLower v == "1" || strLower v == "y"

/-- Test `value.lower() in ['true', 'yes', '1', 'y', 'registered']`  (line 121). -/
def regCell (v : String) : Bool :=
  strLower v == "true" || strLower v == "yes" || strLower v == "1" ||
    strLower v == "y" || strLower v == "registered"

/-- Rendering of an optional string the way a Python f-string renders
`student.get('name')`: a missing key prints as `None`. -/
def pyStr (o : Option String) : String :=
  o.getD "None"

/-- Which student field a sheet header column feeds, per the
`header.lower() in [...]` elif-chain (lines 110-121 and 173-184). -/
inductive FieldKind where
  | fid | fname | femail | fage | fcomp | freg | fother
deriving DecidableEq

/-- Classifier for one header cell: the elif-chain on `header.lower()`. -/
def headerKind (h : String) : FieldKind :=
  if strLower h == "student_id" || strLower h == "id" || strLower h == "student id" then .fid
  else if strLower h == "name" || strLower h == "student_name" || strLower h == "full_name" then .fname
  else if strLower h == "email" || strLower h == "email_address" then .femail
  else if strLower h == "age" then .fage
  else if strLower h == "competition" || strLower h == "in_competition" then .fcomp
  else if strLower h == "registration_status" || strLower h == "registered" || strLower h == "status" then .freg
  else .fother

/-- One step of the row-parsing loop body of `sync_from_google_sheet`
(lines 109-121): assign the coerced cell value to the mapped field. -/
def setField (st : Student) (h v : String) : Student :=
  match headerKind h with
  | .fid => { st with student_id := some v }
  | .fname => { st with name := some v }
  | .femail => { st with email := some v }
  | .fage => { st with age := some (pyInt v) }
  | .fcomp => { st with competition := some (boolCell v) }
  | .freg => { st with registration_status := some (regCell v) }
  | .fother => st

/-- The document with no fields set (`student = {}`). -/
def emptyStudent : Student :=
  ⟨none, none, none, none, none, none, none⟩

/-- Loop `for i, header in enumerate(headers): value = row[i] if i < len(row) else ""`
followed by the field mapping (lines 106-121). -/
def parseRow (headers row : List String) : Student :=
  headers.enum.foldl (fun st p => setField st p.2 (row.getD p.1 "")) emptyStudent

/-- Guard `'student_id' in student and student['student_id']`  (line 123). -/
def keepStudent (st : Student) : Bool :=
  match st.student_id with
  | some v => !v.isEmpty
  | none => false

/-- The `students_data` list built from the sheet's data rows
(lines 103-124): rows at least as long as the header are parsed, and the
parsed document is kept when its `student_id` is present and non-empty. -/
def rowsToStudents (headers : List String) (rows : List (List String)) : List Student :=
  ((rows.filter (fun r => decide (headers.length ≤ r.length))).map
    (parseRow headers)).filter keepStudent

/-- Mongo `find_one({"student_id": sid})`: the first document whose
`student_id` equals `sid`. -/
def findStudent (students : List Student) (sid : String) : Option Student :=
  students.find? (fun st => st.student_id == some sid)

/-- Action of `$set` on one optional field: a present update value overwrites. -/
def setOpt (o n : Option α) : Option α :=
  match n with
  | some v => some v
  | none => o

/-- MongoDB `$set` of document `upd` into document `old`: every field
present in `upd` overwrites, every field absent in `upd` is kept. -/
def mergeStudent (old upd : Student) : Student :=
  ⟨setOpt old.student_id upd.student_id,
   setOpt old.name upd.name,
   setOpt old.email upd.email,
   setOpt old.age upd.age,
   setOpt old.competition upd.competition,
   setOpt old.registration_status upd.registration_status,
   setOpt old.created_at upd.created_at⟩

/-- Mongo `update_one({'student_id': id}, {'$set': upd}, upsert=True)`
(lines 129-133): merge into the first matching document, or insert a
document built from the filter plus the `$set` fields. -/
def upsertById : List Student → String → Student → List Student
  | [], id, upd => [mergeStudent { emptyStudent with student_id := some id } upd]
  | st :: rest, id, upd =>
    if st.student_id == some id then mergeStudent st upd :: rest
    else st :: upsertById rest id upd

/-- Mongo `update_one({"student_id": sid}, {"$set": {"registration_status": True}})`
(lines 290-293): set the flag on the first matching document, no upsert. -/
def updateRegistration : List Student → String → List Student
  | [], _ => []
  | st :: rest, sid =>
    if st.student_id == some sid then
      { st with registration_status := some true } :: rest
    else st :: updateRegistration rest sid

/-- The upsert loop of `sync_from_google_sheet` (lines 127-135), applied to
the parsed sheet documents in order. -/
def applyAll (acc : List Student) (studs : List Student) : List Student :=
  studs.foldl (fun a st => upsertById a (st.student_id.getD "") st) acc

/-- Embedding of `sync_from_google_sheet` (lines 81-142): skip (returning `False`) when
the sheet service is unconfigured or the sheet has no values; otherwise
parse the data rows under the first (header) row and upsert each kept
document into the student collection, returning `True`. -/
def sync_from_google_sheet (s : DBState) : Bool × DBState :=
  if s.sheetOk = false then (false, s)
  else
    match s.sheet with
    | [] => (false, s)
    | headers :: rows =>
      (true, { s with students := applyAll s.students (rowsToStudents headers rows) })

/-- One output cell of `sync_to_google_sheet`'s row rendering
(lines 172-186): the reverse header mapping, booleans rendered as the
literal strings `TRUE` / `FALSE`, unknown headers as the empty string. -/
def renderCell (h : String) (rec : Student) : String :=
  match headerKind h with
  | .fid => rec.student_id.getD ""
  | .fname => rec.name.getD ""
  | .femail => rec.email.getD ""
  | .fage => match rec.age with
    | some a => toString a
    | none => ""
  | .fcomp => if rec.competition.getD false then "TRUE" else "FALSE"
  | .freg => if rec.registration_status.getD false then "TRUE" else "FALSE"
  | .fother => ""

/-- List `row_data`: one rendered cell per header (lines 171-186). -/
def renderRow (headers : List String) (rec : Student) : List String :=
  headers.map (fun h => renderCell h rec)

/-- Test `len(row) > 0 and row[0] == student_id`  (line 166); `student_id` is
`student_data.get('student_id')`, and a missing id (`None`) matches no cell. -/
def matchRow (sid : Option String) (row : List String) : Bool :=
  match row, sid with
  | c :: _, some x => c == x
  | _, _ => false

/-- Embedding of `sync_to_google_sheet` (lines 144-218): `False` when unconfigured or the
sheet is empty; otherwise render the record against the header row, then
overwrite the first data row whose first cell equals the record's id (a
range update touches the first `|headers|` cells of that row), or append a
new row when no data row matches. -/
def sync_to_google_sheet (rec : Student) (s : DBState) : Bool × DBState :=
  if s.sheetOk = false then (false, s)
  else
    match s.sheet with
    | [] => (false, s)
    | headers :: rows =>
      match rows.findIdx? (matchRow rec.student_id) with
      | some i =>
        (true, { s with sheet :=
          headers :: rows.set i (renderRow headers rec ++ (rows.getD i []).drop headers.length) })
      | none =>
        (true, { s with sheet := (headers :: rows) ++ [renderRow headers rec] })

/-- Embedding of `log_scan` (lines 334-351): no-op without a client, otherwise insert one
scan-log document. -/
def log_scan (s : DBState) (sid stat : String) (sname : Option String)
    (ty : String) : DBState :=
  if s.client = false then s
  else { s with logs := s.logs ++ [⟨sid, sname, stat, s.now, ty⟩] }

/-- The body of `verify_student` after the pull-sync (lines 278-329):
look the id up, then branch on presence and on the current
`registration_status` (missing flag read as `False`). -/
def verify_core (s1 : DBState) (sid ty : String) : VerifyResult × DBState :=
  match findStudent s1.students sid with
  | some st =>
    match st.registration_status.getD false with
    | false =>
      let upd := { st with registration_status := some true }
      let s2 := { s1 with students := updateRegistration s1.students sid }
      let s3 := (sync_to_google_sheet upd s2).2
      (VerifyResult.ok true (some upd)
        ("Registration completed for " ++ pyStr st.name ++ "!")
        "registered"
        ("✅ " ++ pyStr st.name ++ " has been successfully registered!"),
       log_scan s3 sid "registered" st.name ty)
    | true =>
      (VerifyResult.ok true (some st)
        (pyStr st.name ++ " is already registered")
        "already_registered"
        ("ℹ️ " ++ pyStr st.name ++ " is already registered!"),
       log_scan s1 sid "already_registered" st.name ty)
  | none =>
    (VerifyResult.ok false none
      ("Student ID " ++ sid ++ " not found in database")
      "not_found"
      ("❌ Student ID " ++ sid ++ " not found in database!"),
     log_scan s1 sid "not_found" none ty)

/-- Embedding of `verify_student` (lines 269-332): error without a client; otherwise
first attempt the pull-sync (its result is ignored), then run the
lookup/branch body on the resulting state. -/
def verify_student (s : DBState) (sid ty : String) : VerifyResult × DBState :=
  if s.client = false then (VerifyResult.error "Database connection not available", s)
  else verify_core (sync_from_google_sheet s).2 sid ty

/-- Stable insertion of `a` into `l` under `le`. -/
def insertSorted (le : α → α → Bool) (a : α) : List α → List α
  | [] => [a]
  | b :: t => if le b a then b :: insertSorted le a t else a :: b :: t

/-- Insertion sort under `le` (models the Mongo `sort` on a cursor). -/
def sortBy (le : α → α → Bool) : List α → List α
  | [] => []
  | a :: t => insertSorted le a (sortBy le t)

/-- Mongo ascending comparison on the `name` field: documents missing the
field sort first. -/
def optStrLe (a b : Option String) : Bool :=
  match a, b with
  | none, _ => true
  | some _, none => false
  | some x, some y => !(decide (y < x))

/-- Embedding of `get_scan_logs` (lines 353-371): empty without a client, otherwise the
logs sorted by timestamp descending, limited. -/
def get_scan_logs (s : DBState) (limit : Nat) : List LogEntry :=
  if s.client = false then []
  else (sortBy (fun a b => decide (b.timestamp ≤ a.timestamp)) s.logs).take limit

/-- Embedding of `get_all_students` (lines 373-389): empty without a client, otherwise
all students sorted by name ascending. -/
def get_all_students (s : DBState) : List Student :=
  if s.client = false then []
  else sortBy (fun a b => optStrLe a.name b.name) s.students

/-- Embedding of `add_student` (lines 391-409): error without a client; a missing
`student_id` key raises and is caught (error); an existing id is refused;
otherwise the record is inserted with `created_at` stamped. -/
def add_student (s : DBState) (rec : Student) : AddResult × DBState :=
  if s.client = false then (AddResult.error "Database connection not available", s)
  else
    match rec.student_id with
    | none => (AddResult.error "Error adding student", s)
    | some sid =>
      match findStudent s.students sid with
      | some _ => (AddResult.error ("Student ID " ++ sid ++ " already exists"), s)
      | none =>
        (AddResult.ok, { s with students := s.students ++ [{ rec with created_at := some s.now }] })

/-- The action tag of a structured result, `none` on the error shape. -/
def actionOf : VerifyResult → Option String
  | .error _ => none
  | .ok _ _ _ a _ => some a

/-- Whether a result is the `{"error": ...}` shape. -/
def isErr : VerifyResult → Bool
  | .error _ => true
  | .ok _ _ _ _ _ => false

/-- The registration flag of the first document for `sid`, as
`verify_student` reads it (missing document or missing flag count as
`false`). -/
def flagIn (students : List Student) (sid : String) : Bool :=
  match findStudent students sid with
  | some st => st.registration_status.getD false
  | none => false

/-- No two documents carry the same present `student_id`. -/
def uniqueIds (students : List Student) : Prop :=
  (students.filterMap Student.student_id).Nodup

/-- The last document in `l` whose `student_id` is `sid` ("last row wins"). -/
def lastWithId : List Student → String → Option Student
  | [], _ => none
  | st :: rest, sid =>
    match lastWithId rest sid with
    | some r => some r
    | none => if st.student_id == some sid then some st else none

/-- Which fields of a document are present. -/
def fieldMask (st : Student) : List Bool :=
  [st.student_id.isSome, st.name.isSome, st.email.isSome, st.age.isSome,
   st.competition.isSome, st.registration_status.isSome, st.created_at.isSome]

/-! ### Frame lemmas: which state components each operation can touch -/

theorem pull_frame (s : DBState) :
    (sync_from_google_sheet s).2.client = s.client ∧
    (sync_from_google_sheet s).2.sheetOk = s.sheetOk ∧
    (sync_from_google_sheet s).2.sheet = s.sheet ∧
    (sync_from_google_sheet s).2.logs = s.logs ∧
    (sync_from_google_sheet s).2.now = s.now := by
  unfold sync_from_google_sheet
  split
  next => exact ⟨rfl, rfl, rfl, rfl, rfl⟩
  next => split <;> exact ⟨rfl, rfl, rfl, rfl, rfl⟩

theorem push_frame (rec : Student) (s : DBState) :
    (sync_to_google_sheet rec s).2.client = s.client ∧
    (sync_to_google_sheet rec s).2.sheetOk = s.sheetOk ∧
    (sync_to_google_sheet rec s).2.students = s.students ∧
    (sync_to_google_sheet rec s).2.logs = s.logs ∧
    (sync_to_google_sheet rec s).2.now = s.now := by
  unfold sync_to_google_sheet
  split
  next => exact ⟨rfl, rfl, rfl, rfl, rfl⟩
  next =>
    split
    next => exact ⟨rfl, rfl, rfl, rfl, rfl⟩
    next => split <;> exact ⟨rfl, rfl, rfl, rfl, rfl⟩

theorem log_frame (s : DBState) (sid stat : String) (sname : Option String) (ty : String) :
    (log_scan s sid stat sname ty).client = s.client ∧
    (log_scan s sid stat sname ty).sheetOk = s.sheetOk ∧
    (log_scan s sid stat sname ty).sheet = s.sheet ∧
    (log_scan s sid stat sname ty).students = s.students ∧
    (log_scan s sid stat sname ty).now = s.now := by
  unfold log_scan
  split <;> exact ⟨rfl, rfl, rfl, rfl, rfl⟩

theorem log_scan_logs (s : DBState) (sid stat : String) (sname : Option String)
    (ty : String) (hc : s.client = true) :
    (log_scan s sid stat sname ty).logs = s.logs ++ [⟨sid, sname, stat, s.now, ty⟩] := by
  simp [log_scan, hc]

/-! ### Branch equations for the verification body -/

theorem verify_core_not_found (s1 : DBState) (sid ty : String)
    (hf : findStudent s1.students sid = none) :
    verify_core s1 sid ty =
      (VerifyResult.ok false none
        ("Student ID " ++ sid ++ " not found in database")
        "not_found"
        ("❌ Student ID " ++ sid ++ " not found in database!"),
       log_scan s1 sid "not_found" none ty) := by
  simp only [verify_core, hf]

theorem verify_core_register (s1 : DBState) (sid ty : String) (st : Student)
    (hf : findStudent s1.students sid = some st)
    (hfl : st.registration_status.getD false = false) :
    verify_core s1 sid ty =
      (VerifyResult.ok true (some { st with registration_status := some true })
        ("Registration completed for " ++ pyStr st.name ++ "!")
        "registered"
        ("✅ " ++ pyStr st.name ++ " has been successfully registered!"),
       log_scan
         (sync_to_google_sheet { st with registration_status := some true }
           { s1 with students := updateRegistration s1.students sid }).2
         sid "registered" st.name ty) := by
  simp only [verify_core, hf, hfl]

theorem verify_core_already (s1 : DBState) (sid ty : String) (st : Student)
    (hf : findStudent s1.students sid = some st)
    (hfl : st.registration_status.getD false = true) :
    verify_core s1 sid ty =
      (VerifyResult.ok true (some st)
        (pyStr st.name ++ " is already registered")
        "already_registered"
        ("ℹ️ " ++ pyStr st.name ++ " is already registered!"),
       log_scan s1 sid "already_registered" st.name ty) := by
  simp only [verify_core, hf, hfl]

theorem verify_eq_core (s : DBState) (sid ty : String) (hc : s.client = true) :
    verify_student s sid ty = verify_core (sync_from_google_sheet s).2 sid ty := by
  simp [verify_student, hc]

/-! ### Merge and field-mask lemmas -/

theorem setOpt_setOpt (b n1 n2 : Option α) (h : n1.isSome = n2.isSome) :
    setOpt (setOpt b n1) n2 = setOpt b n2 := by
  cases n1 <;> cases n2 <;> simp_all [setOpt]

theorem merge_merge (b u1 u2 : Student) (h : fieldMask u1 = fieldMask u2) :
    mergeStudent (mergeStudent b u1) u2 = mergeStudent b u2 := by
  simp only [fieldMask, List.cons.injEq, and_true] at h
  obtain ⟨h1, h2, h3, h4, h5, h6, h7⟩ := h
  simp only [mergeStudent, Student.mk.injEq]
  exact ⟨setOpt_setOpt _ _ _ h1, setOpt_setOpt _ _ _ h2, setOpt_setOpt _ _ _ h3,
    setOpt_setOpt _ _ _ h4, setOpt_setOpt _ _ _ h5, setOpt_setOpt _ _ _ h6,
    setOpt_setOpt _ _ _ h7⟩

theorem setField_mask (st1 st2 : Student) (h v1 v2 : String)
    (hm : fieldMask st1 = fieldMask st2) :
    fieldMask (setField st1 h v1) = fieldMask (setField st2 h v2) := by
  simp only [fieldMask, List.cons.injEq, and_true] at hm
  obtain ⟨h1, h2, h3, h4, h5, h6, h7⟩ := hm
  cases hk : headerKind h <;>
    simp [setField, hk, fieldMask, h1, h2, h3, h4, h5, h6, h7]

theorem foldl_setField_mask (l : List (Nat × String)) (st1 st2 : Student)
    (v1 v2 : Nat → String) (hm : fieldMask st1 = fieldMask st2) :
    fieldMask (l.foldl (fun st p => setField st p.2 (v1 p.1)) st1) =
    fieldMask (l.foldl (fun st p => setField st p.2 (v2 p.1)) st2) := by
  induction l generalizing st1 st2 with
  | nil => exact hm
  | cons p t ih => exact ih _ _ (setField_mask _ _ _ _ _ hm)

theorem parseRow_mask (headers r1 r2 : List String) :
    fieldMask (parseRow headers r1) = fieldMask (parseRow headers r2) :=
  foldl_setField_mask headers.enum emptyStudent emptyStudent
    (fun i => r1.getD i "") (fun i => r2.getD i "") rfl

theorem mem_rowsToStudents (headers : List String) (rows : List (List String))
    (st : Student) (h : st ∈ rowsToStudents headers rows) :
    keepStudent st = true ∧ ∃ r, st = parseRow headers r := by
  unfold rowsToStudents at h
  obtain ⟨hmem, hkeep⟩ := List.mem_filter.mp h
  obtain ⟨r, _, hst⟩ := List.mem_map.mp hmem
  exact ⟨hkeep, r, hst.symm⟩

/-! ### Lookup / upsert lemmas -/

theorem find_upsert_self (l : List Student) (id : String) (upd : Student)
    (hid : upd.student_id = some id) :
    findStudent (upsertById l id upd) id =
      some (mergeStudent ((findStudent l id).getD
        { emptyStudent with student_id := some id }) upd) := by
  induction l with
  | nil =>
    simp [upsertById, findStudent, List.find?, mergeStudent, setOpt, hid]
  | cons st rest ih =>
    by_cases hmatch : st.student_id = some id
    · simp [upsertById, findStudent, List.find?, hmatch, mergeStudent, setOpt, hid]
    · have hb : (st.student_id == some id) = false := by
        simp [hmatch]
      simp only [upsertById, hb, if_false, Bool.false_eq_true, findStudent, List.find?, ite_false]
      simp only [findStudent] at ih
      exact ih

theorem find_upsert_ne (l : List Student) (id : String) (upd : Student) (sid : String)
    (hid : upd.student_id = some id) (hne : sid ≠ id) :
    findStudent (upsertById l id upd) sid = findStudent l sid := by
  have hnb : (some id == some sid) = false := by
    simp; exact fun h => hne h.symm
  induction l with
  | nil =>
    simp only [upsertById, findStudent, List.find?]
    have : (mergeStudent { emptyStudent with student_id := some id } upd).student_id = some id := by
      simp [mergeStudent, setOpt, hid]
    rw [this, hnb]
  | cons st rest ih =>
    by_cases hmatch : st.student_id = some id
    · have hb : (st.student_id == some id) = true := by simp [hmatch]
      simp only [upsertById, hb, if_true]
      have h1 : (mergeStudent st upd).student_id = some id := by
        simp [mergeStudent, setOpt, hid]
      simp only [findStudent, List.find?, h1, hmatch, hnb]
    · have hb : (st.student_id == some id) = false := by simp [hmatch]
      simp only [upsertById, hb, Bool.false_eq_true, if_false]
      simp only [findStudent, List.find?] at ih ⊢
      cases hq : (st.student_id == some sid) <;> simp [hq, ih]

theorem find_updateReg (l : List Student) (sid : String) (st : Student)
    (h : findStudent l sid = some st) :
    findStudent (updateRegistration l sid) sid =
      some { st with registration_status := some true } := by
  induction l with
  | nil => simp [findStudent, List.find?] at h
  | cons a rest ih =>
    by_cases hmatch : a.student_id = some sid
    · have hb : (a.student_id == some sid) = true := by simp [hmatch]
      simp only [findStudent, List.find?, hb] at h
      cases h
      simp only [updateRegistration, hb, if_true, findStudent, List.find?, hb]
    · have hb : (a.student_id == some sid) = false := by simp [hmatch]
      simp only [findStudent, List.find?, hb] at h
      simp only [updateRegistration, hb, Bool.false_eq_true, if_false,
        findStudent, List.find?]
      simp only [findStudent] at ih
      exact ih h

theorem flag_updateReg (l : List Student) (x a : String)
    (h : flagIn l a = true) :
    flagIn (updateRegistration l x) a = true := by
  induction l with
  | nil => simp [flagIn, findStudent, List.find?] at h
  | cons st rest ih =>
    by_cases hx : st.student_id = some x
    · have hbx : (st.student_id == some x) = true := by simp [hx]
      by_cases ha : st.student_id = some a
      · have hba : (st.student_id == some a) = true := by simp [ha]
        simp only [updateRegistration, hbx, if_true, flagIn, findStudent, List.find?, hba,
          Option.getD_some]
      · have hba : (st.student_id == some a) = false := by simp [ha]
        simp only [flagIn, findStudent, List.find?, hba] at h
        simp only [updateRegistration, hbx, if_true, flagIn, findStudent, List.find?, hba]
        exact h
    · have hbx : (st.student_id == some x) = false := by simp [hx]
      by_cases ha : st.student_id = some a
      · have hba : (st.student_id == some a) = true := by simp [ha]
        simp only [flagIn, findStudent, List.find?, hba] at h
        simp only [updateRegistration, hbx, Bool.false_eq_true, if_false,
          flagIn, findStudent, List.find?, hba]
        exact h
      · have hba : (st.student_id == some a) = false := by simp [ha]
        simp only [flagIn, findStudent, List.find?, hba] at h
        simp only [updateRegistration, hbx, Bool.false_eq_true, if_false,
          flagIn, findStudent, List.find?, hba]
        exact ih h

/-! ### Kept documents, last-wins, and id-uniqueness under the upsert fold -/

theorem keep_id (st : Student) (h : keepStudent st = true) :
    ∃ w, st.student_id = some w := by
  unfold keepStudent at h
  cases hsid : st.student_id with
  | none => rw [hsid] at h; exact absurd h (by simp)
  | some v => exact ⟨v, rfl⟩

theorem lastWithId_mem (l : List Student) (id : String) (st : Student)
    (h : lastWithId l id = some st) : st ∈ l := by
  induction l with
  | nil => simp [lastWithId] at h
  | cons a rest ih =>
    simp only [lastWithId] at h
    cases hr : lastWithId rest id with
    | some r =>
      rw [hr] at h
      obtain rfl : r = st := by injection h
      exact List.mem_cons_of_mem _ (ih hr)
    | none =>
      rw [hr] at h
      by_cases hb : a.student_id = some id
      · rw [if_pos (by simp [hb])] at h
        obtain rfl : a = st := by injection h
        exact List.mem_cons_self _ _
      · rw [if_neg (by simp [hb])] at h
        exact absurd h (by simp)

theorem lastWithId_none (l : List Student) (id : String)
    (h : lastWithId l id = none) : ∀ st ∈ l, st.student_id ≠ some id := by
  induction l with
  | nil => simp
  | cons a rest ih =>
    simp only [lastWithId] at h
    cases hr : lastWithId rest id with
    | some r => rw [hr] at h; exact absurd h (by simp)
    | none =>
      rw [hr] at h
      intro st hmem
      rcases List.mem_cons.mp hmem with rfl | hm
      · intro heq
        rw [if_pos (by simp [heq])] at h
        exact absurd h (by simp)
      · exact ih hr st hm

theorem ids_upsert (l : List Student) (id : String) (upd : Student)
    (hid : upd.student_id = some id) :
    (upsertById l id upd).filterMap Student.student_id =
      if l.any (fun st => st.student_id == some id) then
        l.filterMap Student.student_id
      else l.filterMap Student.student_id ++ [id] := by
  induction l with
  | nil =>
    simp [upsertById, mergeStudent, setOpt, hid]
  | cons st rest ih =>
    by_cases hmatch : st.student_id = some id
    · have hb : (st.student_id == some id) = true := by simp [hmatch]
      simp [upsertById, hb, mergeStudent, setOpt, hid, hmatch]
    · have hb : (st.student_id == some id) = false := by simp [hmatch]
      simp only [upsertById, hb, Bool.false_eq_true, if_false, List.any_cons, Bool.false_or]
      cases hany : rest.any (fun st => st.student_id == some id) <;>
        cases hsid : st.student_id <;>
          simp_all [List.filterMap_cons]

theorem not_mem_ids (l : List Student) (id : String)
    (h : l.any (fun st => st.student_id == some id) = false) :
    id ∉ l.filterMap Student.student_id := by
  intro hmem
  obtain ⟨a, ha, haid⟩ := List.mem_filterMap.mp hmem
  have : (a.student_id == some id) = true := by simp [haid]
  rw [List.any_eq_false] at h
  exact absurd this (by simp [h a ha])

theorem uniqueIds_upsert (l : List Student) (id : String) (upd : Student)
    (hid : upd.student_id = some id) (hu : uniqueIds l) :
    uniqueIds (upsertById l id upd) := by
  unfold uniqueIds at *
  rw [ids_upsert l id upd hid]
  cases hany : l.any (fun st => st.student_id == some id) with
  | true => simpa using hu
  | false =>
    simp only [Bool.false_eq_true, if_false]
    rw [List.nodup_append]
    refine ⟨hu, List.nodup_singleton id, fun a ha hb => ?_⟩
    have haid : a = id := by simpa using hb
    rw [haid] at ha
    exact not_mem_ids l id hany ha

theorem applyAll_find_none (studs : List Student) (acc : List Student) (id : String)
    (hk : ∀ st ∈ studs, keepStudent st = true)
    (hnone : lastWithId studs id = none) :
    findStudent (applyAll acc studs) id = findStudent acc id := by
  induction studs generalizing acc with
  | nil => rfl
  | cons st rest ih =>
    obtain ⟨w, hw⟩ := keep_id st (hk st (List.mem_cons_self st rest))
    have hstep : applyAll acc (st :: rest) = applyAll (upsertById acc w st) rest := by
      simp [applyAll, List.foldl, hw]
    simp only [lastWithId] at hnone
    cases hr : lastWithId rest id with
    | some r => rw [hr] at hnone; exact absurd hnone (by simp)
    | none =>
      rw [hr] at hnone
      have hne : st.student_id ≠ some id := by
        intro heq
        rw [if_pos (by simp [heq])] at hnone
        exact absurd hnone (by simp)
      have hidne : id ≠ w := fun hh => hne (by rw [hw, hh])
      rw [hstep]
      rw [ih (upsertById acc w st) (fun x hx => hk x (List.mem_cons_of_mem _ hx)) hr]
      exact find_upsert_ne acc w st id hw hidne

theorem applyAll_find_last (studs : List Student) (acc : List Student) (id : String)
    (st' : Student)
    (hk : ∀ st ∈ studs, keepStudent st = true)
    (hm : ∀ a ∈ studs, ∀ b ∈ studs, fieldMask a = fieldMask b)
    (hlast : lastWithId studs id = some st') :
    findStudent (applyAll acc studs) id =
      some (mergeStudent ((findStudent acc id).getD
        { emptyStudent with student_id := some id }) st') := by
  induction studs generalizing acc with
  | nil => simp [lastWithId] at hlast
  | cons st rest ih =>
    obtain ⟨w, hw⟩ := keep_id st (hk st (List.mem_cons_self st rest))
    have hstep : applyAll acc (st :: rest) = applyAll (upsertById acc w st) rest := by
      simp [applyAll, List.foldl, hw]
    simp only [lastWithId] at hlast
    cases hr : lastWithId rest id with
    | some r =>
      rw [hr] at hlast
      obtain rfl : r = st' := by injection hlast
      rw [hstep]
      rw [ih (upsertById acc w st) (fun x hx => hk x (List.mem_cons_of_mem _ hx))
            (fun a ha b hb => hm a (List.mem_cons_of_mem _ ha) b (List.mem_cons_of_mem _ hb))
            hr]
      by_cases hidw : id = w
      · subst hidw
        rw [find_upsert_self acc id st (by rw [hw])]
        simp only [Option.getD_some]
        congr 1
        exact merge_merge _ st r
          (hm st (List.mem_cons_self _ _) r
            (List.mem_cons_of_mem _ (lastWithId_mem rest id r hr)))
      · rw [find_upsert_ne acc w st id hw hidw]
    | none =>
      rw [hr] at hlast
      by_cases hbeq : st.student_id = some id
      · rw [if_pos (by simp [hbeq])] at hlast
        obtain rfl : st = st' := by injection hlast
        have hwid : w = id := by
          rw [hw] at hbeq
          injection hbeq
        have hw2 : st.student_id = some id := by rw [hw, hwid]
        rw [hstep, hwid]
        rw [applyAll_find_none rest (upsertById acc id st) id
              (fun x hx => hk x (List.mem_cons_of_mem _ hx)) hr]
        exact find_upsert_self acc id st hw2
      · rw [if_neg (by simp [hbeq])] at hlast
        exact absurd hlast (by simp)

theorem uniqueIds_applyAll (studs : List Student) (acc : List Student)
    (hk : ∀ st ∈ studs, keepStudent st = true) (hu : uniqueIds acc) :
    uniqueIds (applyAll acc studs) := by
  induction studs generalizing acc with
  | nil => exact hu
  | cons st rest ih =>
    obtain ⟨w, hw⟩ := keep_id st (hk st (List.mem_cons_self st rest))
    have hstep : applyAll acc (st :: rest) = applyAll (upsertById acc w st) rest := by
      simp [applyAll, List.foldl, hw]
    rw [hstep]
    exact ih (upsertById acc w st) (fun x hx => hk x (List.mem_cons_of_mem _ hx))
      (uniqueIds_upsert acc w st hw hu)

/-! ### Linear-scan and row-update helpers for the push direction -/

theorem findIdx?_first (p : α → Bool) (d : α) :
    ∀ (l : List α) (i : Nat), l.findIdx? p = some i →
      i < l.length ∧ p (l.getD i d) = true ∧ ∀ j, j < i → p (l.getD j d) = false := by
  intro l
  induction l with
  | nil => intro i h; simp at h
  | cons x xs ih =>
    intro i h
    rw [List.findIdx?_cons] at h
    by_cases hp : p x = true
    · rw [if_pos hp] at h
      obtain rfl : 0 = i := by injection h
      exact ⟨Nat.zero_lt_succ _, hp, fun j hj => absurd hj (Nat.not_lt_zero j)⟩
    · rw [if_neg (by simpa using hp), List.findIdx?_succ] at h
      obtain ⟨k, hk, rfl⟩ := Option.map_eq_some'.mp h
      obtain ⟨h1, h2, h3⟩ := ih k hk
      refine ⟨Nat.succ_lt_succ h1, h2, fun j hj => ?_⟩
      cases j with
      | zero => simpa using hp
      | succ j' => exact h3 j' (Nat.lt_of_succ_lt_succ hj)

theorem getD_set_ne (x d : α) :
    ∀ (l : List α) (i j : Nat), j ≠ i → (l.set i x).getD j d = l.getD j d := by
  intro l
  induction l with
  | nil => intro i j _; cases i <;> rfl
  | cons a t ih =>
    intro i j h
    cases i with
    | zero =>
      cases j with
      | zero => exact absurd rfl h
      | succ j' => rfl
    | succ i' =>
      cases j with
      | zero => rfl
      | succ j' => exact ih i' j' (fun hh => h (by rw [hh]))

/-! ### Claim C8 -/

/-- A state whose Mongo connection failed at construction (`self.client = None`). -/
def deadState : DBState := ⟨false, false, [], [], [], 0⟩

/-- C8: when the store connection failed at construction (`client = None`),
every operation short-circuits without touching the store: `verify_student`
and `add_student` return the error result, `get_all_students` and
`get_scan_logs` return `[]`, and `log_scan` is a no-op. (Nothing in the
class ever re-assigns `self.client`, so the state component is constant
for the process lifetime.) -/
theorem C8_no_client_short_circuit (s : DBState) (sid ty stat : String)
    (sname : Option String) (rec : Student) (limit : Nat)
    (hc : s.client = false) :
    verify_student s sid ty = (VerifyResult.error "Database connection not available", s) ∧
    add_student s rec = (AddResult.error "Database connection not available", s) ∧
    get_all_students s = [] ∧
    get_scan_logs s limit = [] ∧
    log_scan s sid stat sname ty = s := by
  refine ⟨?_, ?_, ?_, ?_, ?_⟩ <;>
    simp [verify_student, add_student, get_all_students, get_scan_logs, log_scan, hc]

theorem C8_no_client_short_circuit_witness :
    deadState.client = false ∧
    (verify_student deadState "S1" "barcode"
        = (VerifyResult.error "Database connection not available", deadState) ∧
      add_student deadState emptyStudent
        = (AddResult.error "Database connection not available", deadState) ∧
      get_all_students deadState = [] ∧
      get_scan_logs deadState 50 = [] ∧
      log_scan deadState "S1" "not_found" none "barcode" = deadState) :=
  ⟨rfl, C8_no_client_short_circuit deadState "S1" "barcode" "not_found" none
    emptyStudent 50 rfl⟩

/-! ### Claim C10 -/

/-- C10: when the spreadsheet read returns no values at all, the push
(`sync_to_google_sheet`) returns `False` and changes nothing, so the row
count does not increase. -/
theorem C10_empty_sheet_push (s : DBState) (rec : Student)
    (hempty : s.sheet = []) :
    sync_to_google_sheet rec s = (false, s) ∧
    (sync_to_google_sheet rec s).2.sheet.length = s.sheet.length := by
  have h1 : sync_to_google_sheet rec s = (false, s) := by
    unfold sync_to_google_sheet
    rw [hempty]
    split <;> rfl
  exact ⟨h1, by rw [h1]⟩

/-- A configured but completely empty sheet. -/
def emptySheetState : DBState := ⟨true, true, [], [], [], 0⟩

theorem C10_empty_sheet_push_witness :
    emptySheetState.sheet = [] ∧
    (sync_to_google_sheet emptyStudent emptySheetState = (false, emptySheetState) ∧
      (sync_to_google_sheet emptyStudent emptySheetState).2.sheet.length
        = emptySheetState.sheet.length) :=
  ⟨rfl, C10_empty_sheet_push emptySheetState emptyStudent rfl⟩

/-! ### Claim C7 -/

/-- C7: a failing pull-sync (`sync_from_google_sheet` returning `False`)
does not abort `verify_student`: the pull leaves the state unchanged, the
workflow proceeds to the lookup/branch body on the existing (stale) store,
and the returned result is structured, not the error shape. -/
theorem C7_pull_failure_continues (s : DBState) (sid ty : String)
    (hc : s.client = true)
    (hfail : (sync_from_google_sheet s).1 = false) :
    (sync_from_google_sheet s).2 = s ∧
    verify_student s sid ty = verify_core s sid ty ∧
    isErr (verify_student s sid ty).1 = false := by
  have hsame : (sync_from_google_sheet s).2 = s := by
    unfold sync_from_google_sheet at hfail ⊢
    by_cases hok : s.sheetOk = false
    · rw [if_pos hok]
    · rw [if_neg hok] at hfail ⊢
      cases hsheet : s.sheet with
      | nil => rfl
      | cons h t => rw [hsheet] at hfail; simp at hfail
  have h2 : verify_student s sid ty = verify_core s sid ty := by
    simp [verify_student, hc, hsame]
  refine ⟨hsame, h2, ?_⟩
  rw [h2]
  cases hf : findStudent s.students sid with
  | none => rw [verify_core_not_found _ _ ty hf]; rfl
  | some st =>
    cases hfl : st.registration_status.getD false with
    | false => rw [verify_core_register _ _ ty st hf hfl]; rfl
    | true => rw [verify_core_already _ _ ty st hf hfl]; rfl

/-- A state with a connected store but no configured sheet service, so the
pull-sync fails. -/
def staleState : DBState :=
  ⟨true, false, [], [⟨some "S1", some "Ann", none, none, none, some false, none⟩], [], 0⟩

theorem C7_pull_failure_continues_witness :
    staleState.client = true ∧
    (sync_from_google_sheet staleState).1 = false ∧
    ((sync_from_google_sheet staleState).2 = staleState ∧
      verify_student staleState "S1" "barcode" = verify_core staleState "S1" "barcode" ∧
      isErr (verify_student staleState "S1" "barcode").1 = false) :=
  ⟨rfl, rfl, C7_pull_failure_continues staleState "S1" "barcode" rfl rfl⟩

/-! ### Claim C9 -/

/-- C9: with a live connection, every invocation of `verify_student` —
whichever of the three outcomes `registered` / `already_registered` /
`not_found` it takes — appends exactly one scan-log entry, whose status tag
equals the result's action tag. (Without a connection the call returns the
error shape before reaching any of the three outcomes.) -/
theorem C9_always_logs (s : DBState) (sid ty : String) (hc : s.client = true) :
    ∃ e : LogEntry, (verify_student s sid ty).2.logs = s.logs ++ [e] ∧
      some e.log_status = actionOf (verify_student s sid ty).1 := by
  have hc1 : (sync_from_google_sheet s).2.client = s.client := (pull_frame s).1
  have hlogs1 : (sync_from_google_sheet s).2.logs = s.logs := (pull_frame s).2.2.2.1
  have hnow1 : (sync_from_google_sheet s).2.now = s.now := (pull_frame s).2.2.2.2
  rw [verify_eq_core s sid ty hc]
  cases hf : findStudent (sync_from_google_sheet s).2.students sid with
  | none =>
    rw [verify_core_not_found _ _ ty hf]
    refine ⟨⟨sid, none, "not_found", s.now, ty⟩, ?_, rfl⟩
    rw [log_scan_logs _ _ _ _ _ (by rw [hc1, hc]), hlogs1, hnow1]
  | some st =>
    cases hfl : st.registration_status.getD false with
    | false =>
      rw [verify_core_register _ _ ty st hf hfl]
      refine ⟨⟨sid, st.name, "registered", s.now, ty⟩, ?_, rfl⟩
      have hpc := push_frame { st with registration_status := some true }
        { (sync_from_google_sheet s).2 with
          students := updateRegistration (sync_from_google_sheet s).2.students sid }
      rw [log_scan_logs _ _ _ _ _ (by rw [hpc.1]; show (sync_from_google_sheet s).2.client = true; rw [hc1, hc])]
      simp only [hpc.2.2.2.1, hpc.2.2.2.2]
      show (sync_from_google_sheet s).2.logs ++ _ = _
      rw [hlogs1, hnow1]
    | true =>
      rw [verify_core_already _ _ ty st hf hfl]
      refine ⟨⟨sid, st.name, "already_registered", s.now, ty⟩, ?_, rfl⟩
      rw [log_scan_logs _ _ _ _ _ (by rw [hc1, hc]), hlogs1, hnow1]

theorem C9_always_logs_witness :
    staleState.client = true ∧
    ∃ e : LogEntry, (verify_student staleState "S1" "barcode").2.logs
        = staleState.logs ++ [e] ∧
      some e.log_status = actionOf (verify_student staleState "S1" "barcode").1 :=
  ⟨rfl, C9_always_logs staleState "S1" "barcode" rfl⟩

/-! ### Claim C2 -/

/-- A store without `"Z9"` but a sheet row carrying `"Z9"`: the pull-sync
step of `verify_student` inserts the record before the lookup runs. -/
def cexStateC2 : DBState :=
  ⟨true, true, [["student_id", "registration_status"], ["Z9", "FALSE"]], [], [], 0⟩

/-- C2 counterexample: `"Z9"` is not present in the store, yet
`verify_student` returns action `"registered"` (not `"not_found"`) and
mutates the store — the pull-sync step upserts the sheet's `"Z9"` row
before the lookup, so the claim as stated (quantified over the store state
before the call) is false. -/
theorem C2_cx :
    findStudent cexStateC2.students "Z9" = none ∧
    actionOf (verify_student cexStateC2 "Z9" "barcode").1 = some "registered" ∧
    (verify_student cexStateC2 "Z9" "barcode").2.students ≠ cexStateC2.students := by
  decide

/-- C2 (amended): for every identifier not present in the store *after the
initial pull-sync step*, `verify_student` leaves every student record of
that post-pull state unchanged, appends exactly one scan-log entry with
status `"not_found"`, and returns `verified = false` with action
`"not_found"`. -/
theorem C2_not_found (s : DBState) (sid ty : String)
    (hc : s.client = true)
    (hfind : findStudent (sync_from_google_sheet s).2.students sid = none) :
    (verify_student s sid ty).2.students = (sync_from_google_sheet s).2.students ∧
    (verify_student s sid ty).2.logs = s.logs ++ [⟨sid, none, "not_found", s.now, ty⟩] ∧
    (verify_student s sid ty).1 = VerifyResult.ok false none
      ("Student ID " ++ sid ++ " not found in database") "not_found"
      ("❌ Student ID " ++ sid ++ " not found in database!") := by
  have hc1 := (pull_frame s).1
  have hlogs1 := (pull_frame s).2.2.2.1
  have hnow1 := (pull_frame s).2.2.2.2
  rw [verify_eq_core s sid ty hc, verify_core_not_found _ _ ty hfind]
  refine ⟨?_, ?_, rfl⟩
  · exact (log_frame _ _ _ _ _).2.2.2.1
  · rw [log_scan_logs _ _ _ _ _ (by rw [hc1, hc]), hlogs1, hnow1]

/-- An unconfigured-sheet state with an empty store, for the C2 witness. -/
def wStateC2 : DBState := ⟨true, false, [], [], [], 0⟩

theorem C2_not_found_witness :
    (wStateC2.client = true ∧
      findStudent (sync_from_google_sheet wStateC2).2.students "Z9" = none) ∧
    ((verify_student wStateC2 "Z9" "barcode").2.students
        = (sync_from_google_sheet wStateC2).2.students ∧
      (verify_student wStateC2 "Z9" "barcode").2.logs
        = wStateC2.logs ++ [⟨"Z9", none, "not_found", wStateC2.now, "barcode"⟩] ∧
      (verify_student wStateC2 "Z9" "barcode").1 = VerifyResult.ok false none
        ("Student ID " ++ "Z9" ++ " not found in database") "not_found"
        ("❌ Student ID " ++ "Z9" ++ " not found in database!")) :=
  ⟨⟨rfl, by decide⟩, C2_not_found wStateC2 "Z9" "barcode" rfl (by decide)⟩

/-! ### Claim C3 -/

/-- A store where `"S1"` is registered while the sheet still says `FALSE`. -/
def cexStateC3 : DBState :=
  ⟨true, true, [["student_id", "registration_status"], ["S1", "FALSE"]],
   [⟨some "S1", some "Ann", none, none, none, some true, none⟩], [], 0⟩

/-- C3 counterexample: an execution of `verify_student` (here scanning the
unrelated id `"ZZ"`) resets `"S1"`'s registration flag from `true` to
`false`: the initial pull-sync overwrites the flag with the sheet's `FALSE`
cell, so the flag is not monotonic under the workflow as claimed. -/
theorem C3_cx :
    flagIn cexStateC3.students "S1" = true ∧
    flagIn (verify_student cexStateC3 "ZZ" "barcode").2.students "S1" = false := by
  decide

/-- After the pull-sync, `verify_student` either leaves the store as the
pull produced it or applies `updateRegistration` for the scanned id. -/
theorem verify_students_cases (s : DBState) (sid ty : String) (hc : s.client = true) :
    (verify_student s sid ty).2.students = (sync_from_google_sheet s).2.students ∨
    (verify_student s sid ty).2.students =
      updateRegistration (sync_from_google_sheet s).2.students sid := by
  rw [verify_eq_core s sid ty hc]
  cases hfd : findStudent (sync_from_google_sheet s).2.students sid with
  | none =>
    left
    rw [verify_core_not_found _ _ ty hfd]
    exact (log_frame _ _ _ _ _).2.2.2.1
  | some st =>
    cases hfl : st.registration_status.getD false with
    | true =>
      left
      rw [verify_core_already _ _ ty st hfd hfl]
      exact (log_frame _ _ _ _ _).2.2.2.1
    | false =>
      right
      rw [verify_core_register _ _ ty st hfd hfl]
      exact ((log_frame _ _ _ _ _).2.2.2.1).trans ((push_frame _ _).2.2.1)

/-- C3 (amended): relative to the state produced by the initial pull-sync,
the verification body is monotonic: for every identifier, a flag that is
`true` after the pull is still `true` after the whole call — the only store
write of the body sets a flag to `true`. (The pull-sync step itself
overwrites flags with the sheet's cell values and can reset them, as the
counterexample shows.) -/
theorem C3_flag_monotonic (s : DBState) (sid ty a : String)
    (hc : s.client = true)
    (hf : flagIn (sync_from_google_sheet s).2.students a = true) :
    flagIn (verify_student s sid ty).2.students a = true := by
  rcases verify_students_cases s sid ty hc with h | h
  · rw [h]; exact hf
  · rw [h]; exact flag_updateReg _ sid a hf

/-- An unconfigured-sheet state with a registered `"S1"`, for the C3 witness. -/
def wStateC3 : DBState :=
  ⟨true, false, [], [⟨some "S1", some "Ann", none, none, none, some true, none⟩], [], 0⟩

theorem C3_flag_monotonic_witness :
    (wStateC3.client = true ∧
      flagIn (sync_from_google_sheet wStateC3).2.students "S1" = true) ∧
    flagIn (verify_student wStateC3 "S2" "barcode").2.students "S1" = true :=
  ⟨⟨rfl, by decide⟩, C3_flag_monotonic wStateC3 "S2" "barcode" "S1" rfl (by decide)⟩

/-! ### Claim C1 -/

/-- Store has `"S1"` unregistered, sheet already says `TRUE`: the pull-sync
flips the flag before the lookup. -/
def cexStateC1a : DBState :=
  ⟨true, true, [["student_id", "registration_status"], ["S1", "TRUE"]],
   [⟨some "S1", some "Ann", none, none, none, some false, none⟩], [], 0⟩

/-- Store has `"S1"` unregistered and the sheet holds TWO rows for `"S1"`,
both `FALSE`: the push after the first registration only rewrites the first
matching row, so the next pull-sync ("last row wins") resets the flag. -/
def cexStateC1b : DBState :=
  ⟨true, true,
   [["student_id", "registration_status"], ["S1", "FALSE"], ["S1", "FALSE"]],
   [⟨some "S1", some "Ann", none, none, none, some false, none⟩], [], 0⟩

/-- C1 counterexample, refuting both halves of the claim at concrete
inputs. (a) In `cexStateC1a` the record is present with flag `false`, yet
`verify_student` returns `"already_registered"`, not `"registered"`: the
pull-sync flipped the flag first. (b) In `cexStateC1b` the first call does
return `"registered"`, but the second call on the same identifier — with no
interleaved writes — returns `"registered"` again instead of
`"already_registered"`: the second pull-sync resets the flag from the
sheet's surviving duplicate `FALSE` row. -/
theorem C1_cx :
    ((findStudent cexStateC1a.students "S1").isSome = true ∧
      flagIn cexStateC1a.students "S1" = false ∧
      actionOf (verify_student cexStateC1a "S1" "barcode").1
        = some "already_registered") ∧
    ((findStudent cexStateC1b.students "S1").isSome = true ∧
      flagIn cexStateC1b.students "S1" = false ∧
      actionOf (verify_student cexStateC1b "S1" "barcode").1 = some "registered" ∧
      actionOf (verify_student (verify_student cexStateC1b "S1" "barcode").2
          "S1" "barcode").1 = some "registered") := by
  decide

/-- C1 (amended): if *after the initial pull-sync* the record is present
with registration flag `false`, then `verify_student` returns a verified
result with action `"registered"` and the stored record afterwards is
exactly the looked-up record with the flag set `true` (the single flag
write of the call); and if the second call's own pull-sync leaves that flag
`true` (which the counterexamples show is not automatic), the second call
returns a verified result with action `"already_registered"` and performs
no store mutation beyond its pull-sync. -/
theorem C1_register_then_already (s : DBState) (sid ty : String) (st : Student)
    (hc : s.client = true)
    (hfind : findStudent (sync_from_google_sheet s).2.students sid = some st)
    (hflag : st.registration_status.getD false = false) :
    actionOf (verify_student s sid ty).1 = some "registered" ∧
    findStudent (verify_student s sid ty).2.students sid
      = some { st with registration_status := some true } ∧
    ∀ st2,
      findStudent (sync_from_google_sheet (verify_student s sid ty).2).2.students sid
          = some st2 →
      st2.registration_status.getD false = true →
      actionOf (verify_student (verify_student s sid ty).2 sid ty).1
          = some "already_registered" ∧
      (verify_student (verify_student s sid ty).2 sid ty).2.students
          = (sync_from_google_sheet (verify_student s sid ty).2).2.students := by
  have hstuds : (verify_student s sid ty).2.students
      = updateRegistration (sync_from_google_sheet s).2.students sid := by
    rw [verify_eq_core s sid ty hc, verify_core_register _ _ ty st hfind hflag]
    exact ((log_frame _ _ _ _ _).2.2.2.1).trans ((push_frame _ _).2.2.1)
  have hcl2 : (verify_student s sid ty).2.client = true := by
    rw [verify_eq_core s sid ty hc, verify_core_register _ _ ty st hfind hflag]
    refine ((log_frame _ _ _ _ _).1).trans (((push_frame _ _).1).trans ?_)
    show (sync_from_google_sheet s).2.client = true
    rw [(pull_frame s).1, hc]
  refine ⟨?_, ?_, ?_⟩
  · rw [verify_eq_core s sid ty hc, verify_core_register _ _ ty st hfind hflag]
    rfl
  · rw [hstuds]
    exact find_updateReg _ sid st hfind
  · intro st2 h2find h2flag
    rw [verify_eq_core _ sid ty hcl2, verify_core_already _ _ ty st2 h2find h2flag]
    exact ⟨rfl, (log_frame _ _ _ _ _).2.2.2.1⟩

/-- An unconfigured-sheet state with `"S1"` unregistered, for the C1 witness. -/
def wStateC1 : DBState :=
  ⟨true, false, [], [⟨some "S1", some "Ann", none, none, none, some false, none⟩], [], 0⟩

/-- The `"S1"` record of `wStateC1`. -/
def wStuC1 : Student := ⟨some "S1", some "Ann", none, none, none, some false, none⟩

theorem C1_register_then_already_witness :
    (wStateC1.client = true ∧
      findStudent (sync_from_google_sheet wStateC1).2.students "S1" = some wStuC1 ∧
      wStuC1.registration_status.getD false = false) ∧
    (actionOf (verify_student wStateC1 "S1" "barcode").1 = some "registered" ∧
      findStudent (verify_student wStateC1 "S1" "barcode").2.students "S1"
        = some { wStuC1 with registration_status := some true } ∧
      ∀ st2,
        findStudent
            (sync_from_google_sheet (verify_student wStateC1 "S1" "barcode").2).2.students
            "S1" = some st2 →
        st2.registration_status.getD false = true →
        actionOf (verify_student (verify_student wStateC1 "S1" "barcode").2
            "S1" "barcode").1 = some "already_registered" ∧
        (verify_student (verify_student wStateC1 "S1" "barcode").2 "S1" "barcode").2.students
          = (sync_from_google_sheet (verify_student wStateC1 "S1" "barcode").2).2.students) :=
  ⟨⟨rfl, by decide, by decide⟩,
   C1_register_then_already wStateC1 "S1" "barcode" wStuC1 rfl (by decide) (by decide)⟩

/-! ### Claim C5 -/

/-- C5 counterexample: a `registration_status` cell reading `"Registered"`
is coerced to `true` although its lower-cased text is not one of
`true`/`yes`/`1`/`y` — the code's acceptance list for that column
additionally contains `"registered"`, so "coerced to true exactly when the
lower-cased text is one of true/yes/1/y" is false. -/
theorem C5_cx :
    (parseRow ["registration_status"] ["Registered"]).registration_status = some true ∧
    ¬(strLower "Registered" = "true" ∨ strLower "Registered" = "yes" ∨
      strLower "Registered" = "1" ∨ strLower "Registered" = "y") := by
  decide

/-- C5 (amended): during pull-sync field mapping, an age cell that is not a
non-empty all-digit string is coerced to the integer 0; a `competition`
cell is coerced to `true` exactly when its lower-cased text is one of
`true`/`yes`/`1`/`y`; a `registration_status` cell is coerced to `true`
exactly when its lower-cased text is one of
`true`/`yes`/`1`/`y`/`registered`. The coercions are total functions —
no validation error is ever raised. -/
theorem C5_coercions (st1 st2 st3 : Student) (h1 h2 h3 v1 v2 v3 : String)
    (hcomp : headerKind h1 = FieldKind.fcomp)
    (hreg : headerKind h2 = FieldKind.freg)
    (hage : headerKind h3 = FieldKind.fage)
    (hnd : pyIsDigit v3 = false) :
    ((setField st1 h1 v1).competition = some true ↔
      (strLower v1 = "true" ∨ strLower v1 = "yes" ∨
        strLower v1 = "1" ∨ strLower v1 = "y")) ∧
    ((setField st2 h2 v2).registration_status = some true ↔
      (strLower v2 = "true" ∨ strLower v2 = "yes" ∨ strLower v2 = "1" ∨
        strLower v2 = "y" ∨ strLower v2 = "registered")) ∧
    (setField st3 h3 v3).age = some 0 := by
  refine ⟨?_, ?_, ?_⟩
  · simp [setField, hcomp, boolCell, or_assoc]
  · simp [setField, hreg, regCell, or_assoc]
  · simp [setField, hage, pyInt, hnd]

theorem C5_coercions_witness :
    (headerKind "competition" = FieldKind.fcomp ∧
      headerKind "status" = FieldKind.freg ∧
      headerKind "age" = FieldKind.fage ∧
      pyIsDigit "twenty" = false) ∧
    (((setField emptyStudent "competition" "YES").competition = some true ↔
        (strLower "YES" = "true" ∨ strLower "YES" = "yes" ∨
          strLower "YES" = "1" ∨ strLower "YES" = "y")) ∧
      ((setField emptyStudent "status" "Registered").registration_status = some true ↔
        (strLower "Registered" = "true" ∨ strLower "Registered" = "yes" ∨
          strLower "Registered" = "1" ∨ strLower "Registered" = "y" ∨
          strLower "Registered" = "registered")) ∧
      (setField emptyStudent "age" "twenty").age = some 0) :=
  ⟨⟨by decide, by decide, by decide, by decide⟩,
   C5_coercions emptyStudent emptyStudent emptyStudent "competition" "status" "age"
     "YES" "Registered" "twenty" (by decide) (by decide) (by decide) (by decide)⟩

/-! ### Claim C6 -/

/-- C6: with a configured service and a sheet holding a header row,
`sync_to_google_sheet` scans the data rows for the first one whose first
cell equals the record's identifier. If row `i` matches, exactly that row
is overwritten — the range update replaces its first `|headers|` cells with
the freshly rendered cells and every other row is unchanged, with the row
count preserved. If no row matches, exactly one rendered row is appended
and the row count grows by one. Boolean fields render as the literal
strings `"TRUE"` / `"FALSE"`. -/
theorem C6_push_row (s : DBState) (rec : Student) (headers : List String)
    (rows : List (List String))
    (hok : s.sheetOk = true) (hsheet : s.sheet = headers :: rows) :
    (∀ i, rows.findIdx? (matchRow rec.student_id) = some i →
      (sync_to_google_sheet rec s).1 = true ∧
      (sync_to_google_sheet rec s).2.sheet =
        headers :: rows.set i
          (renderRow headers rec ++ (rows.getD i []).drop headers.length) ∧
      (sync_to_google_sheet rec s).2.sheet.length = s.sheet.length ∧
      matchRow rec.student_id (rows.getD i []) = true ∧
      (∀ j, j < i → matchRow rec.student_id (rows.getD j []) = false) ∧
      (∀ j, j ≠ i →
        (sync_to_google_sheet rec s).2.sheet.getD (j + 1) [] = rows.getD j [])) ∧
    (rows.findIdx? (matchRow rec.student_id) = none →
      (sync_to_google_sheet rec s).1 = true ∧
      (sync_to_google_sheet rec s).2.sheet = (headers :: rows) ++ [renderRow headers rec] ∧
      (sync_to_google_sheet rec s).2.sheet.length = s.sheet.length + 1) ∧
    (∀ h, headerKind h = FieldKind.fcomp →
      renderCell h rec = (if rec.competition.getD false then "TRUE" else "FALSE")) ∧
    (∀ h, headerKind h = FieldKind.freg →
      renderCell h rec = (if rec.registration_status.getD false then "TRUE" else "FALSE")) := by
  have hbase : sync_to_google_sheet rec s =
      match rows.findIdx? (matchRow rec.student_id) with
      | some i =>
        (true,
          { s with
            sheet := headers :: rows.set i (renderRow headers rec ++ (rows.getD i []).drop headers.length) })
      | none =>
        (true, { s with sheet := (headers :: rows) ++ [renderRow headers rec] }) := by
    unfold sync_to_google_sheet
    rw [if_neg (by simp [hok]), hsheet]
  refine ⟨?_, ?_, ?_, ?_⟩
  · intro i hidx
    obtain ⟨hlen, hp, hprev⟩ := findIdx?_first (matchRow rec.student_id) [] rows i hidx
    refine ⟨by rw [hbase, hidx], by rw [hbase, hidx], ?_, hp, hprev, ?_⟩
    · rw [hbase, hidx]
      show (headers :: rows.set i _).length = s.sheet.length
      rw [hsheet]
      simp
    · intro j hj
      rw [hbase, hidx]
      show (headers :: rows.set i _).getD (j + 1) [] = rows.getD j []
      rw [List.getD_cons_succ]
      exact getD_set_ne _ [] rows i j hj
  · intro hidx
    refine ⟨by rw [hbase, hidx], by rw [hbase, hidx], ?_⟩
    rw [hbase, hidx]
    show ((headers :: rows) ++ [renderRow headers rec]).length = s.sheet.length + 1
    rw [hsheet]
    simp
  · intro h hh
    simp [renderCell, hh]
  · intro h hh
    simp [renderCell, hh]

/-- A configured sheet with one matching data row, for the C6 witness. -/
def wStateC6 : DBState :=
  ⟨true, true, [["student_id", "registration_status"], ["S1", "FALSE"]], [], [], 0⟩

/-- A registered record for `"S1"`, for the C6 witness. -/
def wRecC6 : Student := ⟨some "S1", none, none, none, none, some true, none⟩

theorem C6_push_row_witness :
    (wStateC6.sheetOk = true ∧
      wStateC6.sheet = ["student_id", "registration_status"] :: [["S1", "FALSE"]]) ∧
    ((∀ i, [["S1", "FALSE"]].findIdx? (matchRow wRecC6.student_id) = some i →
      (sync_to_google_sheet wRecC6 wStateC6).1 = true ∧
      (sync_to_google_sheet wRecC6 wStateC6).2.sheet =
        ["student_id", "registration_status"] :: [["S1", "FALSE"]].set i
          (renderRow ["student_id", "registration_status"] wRecC6 ++
            ([["S1", "FALSE"]].getD i []).drop
              (["student_id", "registration_status"] : List String).length) ∧
      (sync_to_google_sheet wRecC6 wStateC6).2.sheet.length = wStateC6.sheet.length ∧
      matchRow wRecC6.student_id ([["S1", "FALSE"]].getD i []) = true ∧
      (∀ j, j < i → matchRow wRecC6.student_id ([["S1", "FALSE"]].getD j []) = false) ∧
      (∀ j, j ≠ i →
        (sync_to_google_sheet wRecC6 wStateC6).2.sheet.getD (j + 1) []
          = [["S1", "FALSE"]].getD j [])) ∧
    ([["S1", "FALSE"]].findIdx? (matchRow wRecC6.student_id) = none →
      (sync_to_google_sheet wRecC6 wStateC6).1 = true ∧
      (sync_to_google_sheet wRecC6 wStateC6).2.sheet =
        (["student_id", "registration_status"] :: [["S1", "FALSE"]]) ++
          [renderRow ["student_id", "registration_status"] wRecC6] ∧
      (sync_to_google_sheet wRecC6 wStateC6).2.sheet.length = wStateC6.sheet.length + 1) ∧
    (∀ h, headerKind h = FieldKind.fcomp →
      renderCell h wRecC6 = (if wRecC6.competition.getD false then "TRUE" else "FALSE")) ∧
    (∀ h, headerKind h = FieldKind.freg →
      renderCell h wRecC6 =
        (if wRecC6.registration_status.getD false then "TRUE" else "FALSE"))) :=
  ⟨⟨rfl, rfl⟩, C6_push_row wStateC6 wRecC6 ["student_id", "registration_status"]
    [["S1", "FALSE"]] rfl rfl⟩

/-! ### Claim C4 -/

/-- Header has two columns; the data row `["S4"]` has a non-empty
identifier cell but is shorter than the header row. -/
def cexStateC4 : DBState :=
  ⟨true, true, [["student_id", "name"], ["S4"]], [], [], 0⟩

/-- C4 counterexample: the data row `["S4"]` carries the non-empty
identifier `"S4"` in the identifier-synonym column (column 0), yet
`sync_from_google_sheet` discards it — because the row is shorter than the
header row — and upserts nothing. So sync does not upsert "exactly the data
rows that have a non-empty identifier-synonym cell", and rows lacking an
identifier are not the only ones discarded. -/
theorem C4_cx :
    (sync_from_google_sheet cexStateC4).1 = true ∧
    ["S4"].getD 0 "" = "S4" ∧
    findStudent (sync_from_google_sheet cexStateC4).2.students "S4" = none ∧
    (sync_from_google_sheet cexStateC4).2.students = [] := by
  decide

/-- C4 (amended): for a sheet whose first row is a header,
`sync_from_google_sheet` upserts exactly the data rows that are at least as
long as the header row *and* whose parsed identifier is non-empty
(`rowsToStudents` is literally that filter), applying them in sheet order
(`applyAll`). If the store's present identifiers are unique beforehand they
stay unique — exactly one record per distinct identifier — and for every
identifier the final record is the pre-existing record (or a fresh one)
merged with the *last* kept row bearing that identifier ("last row wins");
identifiers with no kept row are untouched. -/
theorem C4_pull_upserts (s : DBState) (headers : List String)
    (rows : List (List String))
    (hok : s.sheetOk = true) (hsheet : s.sheet = headers :: rows)
    (hu : uniqueIds s.students) :
    (sync_from_google_sheet s).1 = true ∧
    (sync_from_google_sheet s).2.students
      = applyAll s.students (rowsToStudents headers rows) ∧
    uniqueIds (sync_from_google_sheet s).2.students ∧
    (∀ id, lastWithId (rowsToStudents headers rows) id = none →
      findStudent (sync_from_google_sheet s).2.students id
        = findStudent s.students id) ∧
    (∀ id st, lastWithId (rowsToStudents headers rows) id = some st →
      findStudent (sync_from_google_sheet s).2.students id =
        some (mergeStudent ((findStudent s.students id).getD
          { emptyStudent with student_id := some id }) st)) := by
  have hbase : sync_from_google_sheet s =
      (true, { s with students := applyAll s.students (rowsToStudents headers rows) }) := by
    unfold sync_from_google_sheet
    rw [if_neg (by simp [hok]), hsheet]
  have hkeep : ∀ st ∈ rowsToStudents headers rows, keepStudent st = true :=
    fun st h => (mem_rowsToStudents headers rows st h).1
  have hmask : ∀ a ∈ rowsToStudents headers rows, ∀ b ∈ rowsToStudents headers rows,
      fieldMask a = fieldMask b := by
    intro a ha b hb
    obtain ⟨-, r1, hr1⟩ := mem_rowsToStudents headers rows a ha
    obtain ⟨-, r2, hr2⟩ := mem_rowsToStudents headers rows b hb
    rw [hr1, hr2]
    exact parseRow_mask headers r1 r2
  refine ⟨by rw [hbase], by rw [hbase], ?_, ?_, ?_⟩
  · rw [hbase]
    exact uniqueIds_applyAll _ _ hkeep hu
  · intro id hnone
    rw [hbase]
    exact applyAll_find_none _ _ id hkeep hnone
  · intro id st hlast
    rw [hbase]
    exact applyAll_find_last _ _ id st hkeep hmask hlast

/-- A sheet with two duplicate `"S1"` rows over an empty store, for the C4
witness: the result keeps one record with the last row's name. -/
def wStateC4 : DBState :=
  ⟨true, true, [["student_id", "name"], ["S1", "Ann"], ["S1", "Bea"]], [], [], 0⟩

theorem C4_pull_upserts_witness :
    (wStateC4.sheetOk = true ∧
      wStateC4.sheet = ["student_id", "name"] :: [["S1", "Ann"], ["S1", "Bea"]] ∧
      uniqueIds wStateC4.students) ∧
    ((sync_from_google_sheet wStateC4).1 = true ∧
      (sync_from_google_sheet wStateC4).2.students
        = applyAll wStateC4.students
            (rowsToStudents ["student_id", "name"] [["S1", "Ann"], ["S1", "Bea"]]) ∧
      uniqueIds (sync_from_google_sheet wStateC4).2.students ∧
      (∀ id, lastWithId (rowsToStudents ["student_id", "name"]
            [["S1", "Ann"], ["S1", "Bea"]]) id = none →
        findStudent (sync_from_google_sheet wStateC4).2.students id
          = findStudent wStateC4.students id) ∧
      (∀ id st, lastWithId (rowsToStudents ["student_id", "name"]
            [["S1", "Ann"], ["S1", "Bea"]]) id = some st →
        findStudent (sync_from_google_sheet wStateC4).2.students id =
          some (mergeStudent ((findStudent wStateC4.students id).getD
            { emptyStudent with student_id := some id }) st))) :=
  ⟨⟨rfl, rfl, by simp [uniqueIds, wStateC4]⟩,
   C4_pull_upserts wStateC4 ["student_id", "name"] [["S1", "Ann"], ["S1", "Bea"]]
     rfl rfl (by simp [uniqueIds, wStateC4])⟩

end StudentDB
